import Mathlib

/-!
Verification development for the PDF-Tools repository: the session-scoped
transform pipeline (page-selector parsing, merge, organize, cleanup, the
artifact store) and the React frontend state handlers that drive it.

The repository splits into a React/TypeScript frontend (present under
`frontend/`) and a Python/FastAPI backend (`backend/main.py`, referenced by
the deployment guide and by every frontend request, but not part of the
frontend tree).  Frontend handlers are embedded directly from the TypeScript
source; backend behaviour is modelled from the specification, and each such
definition carries a doc comment starting `Modelled from the spec:`.
-/

namespace PDFTools

/-! ### Character-level helpers for the selector grammar -/

/-- Whitespace test used when trimming selector tokens. -/
def isWS (c : Char) : Bool :=
  c.isWhitespace

/-- Splits a character list on a separator character (comma or dash in the
selector grammar), keeping empty segments, like Python `str.split(sep)`. -/
def splitOnChar (sep : Char) : List Char → List (List Char)
  | [] => [[]]
  | c :: rest =>
    let r := splitOnChar sep rest
    if c = sep then [] :: r
    else
      match r with
      | [] => [[c]]
      | t :: ts => (c :: t) :: ts

/-- Removes leading and trailing whitespace from a token. -/
def trimChars (cs : List Char) : List Char :=
  ((cs.dropWhile isWS).reverse.dropWhile isWS).reverse

/-- Parses a token consisting solely of decimal digits into a number;
any other token (empty, sign, stray characters) is rejected. -/
def charsToNat? (cs : List Char) : Option Nat :=
  if cs.isEmpty then none
  else if cs.all Char.isDigit then
    some (cs.foldl (fun a c => 10 * a + (c.toNat - '0'.toNat)) 0)
  else none

/-! ### PageSelector (spec section 4.1) -/

/-- The resolved, validated result of parsing a selector string against a
page count (spec section 3, PageSelection). -/
structure PageSelection where
  indices : List Nat
  sourcePageCount : Nat
deriving DecidableEq

/-- A validation failure naming the offending token (spec sections 4.1, 7). -/
inductive SelError where
  | validationError (token : String)
deriving DecidableEq

/-- Modelled from the spec: the page-selector tokenizer of the backend
service (`backend/main.py`, absent from the source tree).  Spec section 4.1:
comma-separated tokens, whitespace around tokens ignored, empty tokens
skipped (so a single trailing or leading comma is ignored). -/
def tokensOf (expr : String) : List (List Char) :=
  ((splitOnChar ',' expr.data).map trimChars).filter (fun t => !t.isEmpty)

/-- Modelled from the spec: expansion of one selector token (spec section
4.1).  A token is a single 1-based page number `n` with `1 ≤ n ≤ pageCount`,
or an inclusive 1-based range `a-b` with `a ≤ b` and both in range;
out-of-range (`≤ 0` or `> pageCount`), reversed, or malformed tokens fail
with a `ValidationError` naming the token — no silent clamping.  Output
indices are zero-based and a range always expands ascending. -/
def expandToken (tok : List Char) (pageCount : Nat) : Except SelError (List Nat) :=
  match splitOnChar '-' tok with
  | [a] =>
    match charsToNat? a with
    | some n =>
      if 1 ≤ n ∧ n ≤ pageCount then .ok [n - 1]
      else .error (.validationError ⟨tok⟩)
    | none => .error (.validationError ⟨tok⟩)
  | [a, b] =>
    match charsToNat? a, charsToNat? b with
    | some x, some y =>
      if 1 ≤ x ∧ x ≤ y ∧ y ≤ pageCount then .ok (List.range' (x - 1) (y - x + 1))
      else .error (.validationError ⟨tok⟩)
    | _, _ => .error (.validationError ⟨tok⟩)
  | _ => .error (.validationError ⟨tok⟩)

/-- Modelled from the spec: expands every token in order, failing the whole
request on the first offending token (spec section 4.1: partial validity is
not acceptable). -/
def expandTokens (toks : List (List Char)) (pageCount : Nat) :
    Except SelError (List (List Nat)) :=
  match toks with
  | [] => .ok []
  | t :: ts =>
    match expandToken t pageCount with
    | .error e => .error e
    | .ok l =>
      match expandTokens ts pageCount with
      | .error e => .error e
      | .ok ls => .ok (l :: ls)

/-- Stable de-duplication: keeps the first occurrence of each index
(spec section 4.1, remove/extract semantics). -/
def stableDedup : List Nat → List Nat
  | [] => []
  | n :: ns => n :: stableDedup (ns.filter (fun m => !(m == n)))
termination_by l => l.length
decreasing_by
  simp only [List.length_cons]
  exact Nat.lt_succ_of_le (List.length_filter_le _ _)

/-- Modelled from the spec: PageSelector (spec section 4.1).  `dedup` is the
configuration flag passed by the caller: stable de-duplication for
remove/extract, duplicates preserved verbatim for explicit
reorder/organize.  `requireNonEmpty` is the caller policy for the fully
empty expression: a `ValidationError` for operations requiring at least one
page (split/extract/remove), "all pages in original order" for
organize-default. -/
def pageSelector (expr : String) (pageCount : Nat) (dedup requireNonEmpty : Bool) :
    Except SelError PageSelection :=
  let toks := tokensOf expr
  if toks.isEmpty then
    if requireNonEmpty then .error (.validationError expr)
    else .ok ⟨List.range pageCount, pageCount⟩
  else
    match expandTokens toks pageCount with
    | .error e => .error e
    | .ok ls => .ok ⟨if dedup then stableDedup ls.flatten else ls.flatten, pageCount⟩

/-! ### Frontend data model (from `frontend/src/App.tsx`, `FileList.tsx`,
`SortableFile.tsx`, `PageOrganizerModal.tsx`) -/

/-- `FileItem` from `App.tsx`: `id` and `original_name` come from the
server's upload response, `name` is the local file name. -/
structure FileItem where
  id : String
  name : String
  original_name : Option String
deriving DecidableEq

/-- The frontend application state relevant to the working set:
`sessionIdRef.current` and the `files` list (`App.tsx`). -/
structure AppClient where
  sessionId : String
  files : List FileItem
deriving DecidableEq

/-- `generateSessionId` from `App.tsx`:
`session_${Date.now()}_${Math.random().toString(36).substr(2, 9)}`.
`now` is the millisecond timestamp, `rand` the random base-36 token. -/
def generateSessionId (now : Nat) (rand : String) : String :=
  "session_" ++ toString now ++ "_" ++ rand

/-- Initial `App` state: `files` starts empty and `sessionIdRef` is
initialized once with `generateSessionId()` (`App.tsx`). -/
def initApp (now : Nat) (rand : String) : AppClient :=
  { sessionId := generateSessionId now rand, files := [] }

/-- `arrayMove` from `@dnd-kit/sortable`, as used by `FileList.handleDragEnd`
and `PageOrganizerModal.handleDragEnd`: removes the element at `i` and
reinserts it at `j` (indices in bounds in the drag-and-drop callers). -/
def arrayMove {α : Type} (l : List α) (i j : Nat) : List α :=
  match l[i]? with
  | none => l
  | some x => (l.eraseIdx i).insertIdx j x

/-- `handleRemove` from `App.tsx`: removes the file with the given id from
the local `files` list.  Its body is only the two state updates
`setFiles(prev => prev.filter(f => f.id !== id))` and `setMergedUrl(null)`;
it performs no backend request. -/
def handleRemove (st : AppClient) (id : String) : AppClient :=
  { st with files := st.files.filter (fun f => !(f.id == id)) }

/-- The `filesToClean` list computed by the `cleanup` closure in `App.tsx`:
`files.map(f => f.original_name).filter(Boolean)`. -/
def cleanupFilesToClean (st : AppClient) : List String :=
  st.files.filterMap (fun f => f.original_name)

/-- The JSON body of the `/merge` request built by `handleMerge` in
`App.tsx`: `{ files: files.map(f => f.original_name || f.id) }` — note it
carries no session identifier. -/
structure MergeRequest where
  files : List String
deriving DecidableEq

/-- `handleMerge` from `App.tsx`: returns the request it posts, or nothing
when fewer than two files are listed (`if (files.length < 2) return`). -/
def handleMerge (files : List FileItem) : Option MergeRequest :=
  if files.length < 2 then none
  else some ⟨files.map (fun f => f.original_name.getD f.id)⟩

/-- The `/merge` request as a function of the whole app state: the payload
reads only the `files` list, never `sessionIdRef` (`App.tsx`). -/
def buildMergeRequest (st : AppClient) : Option MergeRequest :=
  handleMerge st.files

/-- A page tile in `PageOrganizerModal` (`PageItem` in the source): the
stable drag id `page-${i-1}` and the zero-based original page index.  The
source also carries the rendered thumbnail data-URL (`image`), produced by
the external rasterizer and irrelevant to index bookkeeping. -/
structure PageItem where
  id : String
  originalIndex : Nat
deriving DecidableEq

/-- `loadPages` in `PageOrganizerModal`: one `PageItem` per rendered page,
`id: page-${i-1}`, `originalIndex: i - 1` for `i = 1 .. numPages`. -/
def loadPagesItems (numPages : Nat) : List PageItem :=
  (List.range numPages).map (fun i => { id := "page-" ++ toString i, originalIndex := i })

/-- `handleRemovePage` in `PageOrganizerModal`:
`setPages(prev => prev.filter(p => p.id !== id))`. -/
def handleRemovePage (pages : List PageItem) (id : String) : List PageItem :=
  pages.filter (fun p => !(p.id == id))

/-- The JSON body of the `/organize` request built by
`PageOrganizerModal.handleSave` (and `handleDownload`):
`{ filename, page_indices }` — explicit zero-based indices, no selector
string and no session identifier. -/
structure OrganizeRequest where
  filename : String
  page_indices : List Nat
deriving DecidableEq

/-- `handleSave` in `PageOrganizerModal`: posts the current tile order as
`page_indices = pages.map(p => p.originalIndex)`. -/
def handleSavePayload (fileName : String) (pages : List PageItem) : OrganizeRequest :=
  { filename := fileName, page_indices := pages.map (fun p => p.originalIndex) }

/-- The storage-bucket routing in `PageOrganizerModal.loadPages`: files
whose name starts with one of the generated-output prefixes live in
`/merged`, everything else in `/uploads`.  `String.startsWith` is expressed
on the underlying character lists. -/
def isProcessedFile (fileName : String) : Bool :=
  "organized_".data.isPrefixOf fileName.data ||
  "split_".data.isPrefixOf fileName.data ||
  "compressed_".data.isPrefixOf fileName.data ||
  "protected_".data.isPrefixOf fileName.data ||
  "watermarked_".data.isPrefixOf fileName.data ||
  "images_".data.isPrefixOf fileName.data

/-- `const directory = isProcessedFile ? 'merged' : 'uploads'`
(`PageOrganizerModal.loadPages`). -/
def directoryFor (fileName : String) : String :=
  if isProcessedFile fileName then "merged" else "uploads"

/-! ### Backend models (spec sections 4.2–4.4): the FastAPI service in
`backend/main.py` is not in the source tree, so these are modelled from the
spec. -/

/-- An artifact as the merge/transform pipeline sees it: an id and its page
sequence (pages abstracted to tags so concatenation is observable). -/
structure Artifact where
  id : String
  pages : List Nat
deriving DecidableEq

/-- Error taxonomy of the pipeline (spec section 7). -/
inductive PipelineError where
  | tooFewInputs
  | validationFailed
  | notFound
  | engineFailure
  | nameCollision
deriving DecidableEq

/-- Modelled from the spec: the backend `/merge` operation
(`backend/main.py`, absent from the source tree).  Spec sections 4.4 and 8:
inputs are an ordered sequence of artifacts; fewer than two inputs are
rejected; on success the output page sequence is the concatenation of the
inputs' pages in the caller-specified order. -/
def mergeBackend (inputs : List Artifact) : Except PipelineError (List Nat) :=
  if inputs.length < 2 then .error .tooFewInputs
  else .ok ((inputs.map (fun a => a.pages)).flatten)

/-- Modelled from the spec: the backend `/organize` operation
(`backend/main.py`, absent from the source tree).  Spec section 4.4: input
is an explicit, possibly-reordered, possibly-shorter sequence of zero-based
original page indices; duplicate indices are permitted (duplicating a page)
and indices not listed are dropped; out-of-range indices fail validation. -/
def organizeBackend (origPages : List Nat) (idxs : List Nat) :
    Except PipelineError (List Nat) :=
  if idxs.all (fun i => decide (i < origPages.length)) then
    .ok (idxs.filterMap (fun i => origPages[i]?))
  else .error .validationFailed

/-- System state visible to a transform: the registered artifact records and
the physical files in the storage directory tree (spec sections 4.4, 5). -/
structure SysState where
  artifacts : List Artifact
  storedFiles : List String
deriving DecidableEq

/-- Outcome of the single external-engine invocation of a transform
(spec sections 4.4, 5): success with an output file, or failure (engine
error, timeout, crash) possibly leaving a partially written output file. -/
inductive EngineOutcome where
  | ok (outFile : String) (outPages : List Nat)
  | fail (partialOut : Option String)
deriving DecidableEq

/-- Modelled from the spec: one TransformPipeline request end-to-end
(`backend/main.py`, absent from the source tree).  Spec section 4.4 state
machine `Validated → InputsResolved → EngineInvoked → ArtifactRegistered →
Completed` with `Failed` reachable from any non-terminal state: parameter
validation, input resolution, the engine call (whose partial output, if
any, is first written into storage and then deleted before the error is
surfaced), and registration of exactly one new artifact on success. -/
def runTransform (s : SysState) (paramsValid inputResolved : Bool)
    (eng : EngineOutcome) (newId : String) : SysState × Except PipelineError Artifact :=
  if paramsValid = false then (s, .error .validationFailed)
  else if inputResolved = false then (s, .error .notFound)
  else
    match eng with
    | .ok outFile outPages =>
      let a : Artifact := ⟨newId, outPages⟩
      ({ artifacts := s.artifacts ++ [a], storedFiles := s.storedFiles ++ [outFile] }, .ok a)
    | .fail none => (s, .error .engineFailure)
    | .fail (some p) =>
      ({ s with storedFiles := (s.storedFiles ++ [p]).erase p }, .error .engineFailure)

/-- A stored artifact as the session registry sees it (spec section 3). -/
structure StoredArtifact where
  sessionId : String
  storedName : String
deriving DecidableEq

/-- The server-side artifact table (spec section 4.3). -/
structure ServerState where
  artifacts : List StoredArtifact
deriving DecidableEq

/-- Modelled from the spec: `SessionRegistry.cleanupNow` behind the
`/cleanup` endpoint (`backend/main.py`, absent from the source tree).  Spec
sections 4.3 and 6: deletes the named artifacts of the given session,
tolerates names that no longer exist (no-op, not an error), responds
successfully even for partially-stale input, and tolerates repeated
delivery. -/
def cleanupNow (st : ServerState) (sid : String) (names : List String) :
    ServerState × Bool :=
  (⟨st.artifacts.filter (fun a => !(a.sessionId == sid && names.contains a.storedName))⟩, true)

/-! ### ArtifactStore (spec section 4.2) -/

/-- The operation kinds whose outputs go to the generated bucket, matching
the storage-name prefixes the frontend keys off
(`PageOrganizerModal.loadPages`). -/
inductive OpKind where
  | organized
  | splitDoc
  | compressed
  | protectedDoc
  | watermarked
  | images
deriving DecidableEq

/-- The stable storage-name prefix of each operation kind (spec section 4.2,
matching the frontend's prefix list). -/
def opKindPfx : OpKind → String
  | .organized => "organized"
  | .splitDoc => "split"
  | .compressed => "compressed"
  | .protectedDoc => "protected"
  | .watermarked => "watermarked"
  | .images => "images"

/-- Modelled from the spec: the `storedName` layout
`{operationKindPrefix}_{randomToken}.{ext}` (spec section 4.2). -/
def storedNameFor (k : OpKind) (tok ext : String) : String :=
  opKindPfx k ++ "_" ++ tok ++ "." ++ ext

/-- An ArtifactStore record (spec section 3). -/
structure ArtifactRec where
  id : String
  storedName : String
  displayName : String
  sessionId : String
  sourceArtifactId : Option String
deriving DecidableEq

/-- The ArtifactStore table (spec section 4.2). -/
structure ArtifactStore where
  records : List ArtifactRec
deriving DecidableEq

/-- Modelled from the spec: `ArtifactStore.create` (`backend/main.py`,
absent from the source tree).  Spec section 4.2: allocates a new record
with a `storedName` of the form `{operationKindPrefix}_{randomToken}.{ext}`;
the store never overwrites an existing `storedName` and rejects (rather
than silently overwrites) an accidental collision; derivations are
append-only — a new record is appended, no existing record is mutated. -/
def create (st : ArtifactStore) (sessionId displayName : String)
    (sourceArtifactId : Option String) (k : OpKind) (newId tok ext : String) :
    Except PipelineError (ArtifactStore × ArtifactRec) :=
  let name := storedNameFor k tok ext
  if st.records.any (fun r => r.storedName == name) then .error .nameCollision
  else
    let r : ArtifactRec := ⟨newId, name, displayName, sessionId, sourceArtifactId⟩
    .ok (⟨st.records ++ [r]⟩, r)

/-! ### Frontend request traffic (from `App.tsx`) -/

/-- The backend requests the `App` component issues: uploads and the
cleanup beacon carry `session_id`; the merge request does not. -/
inductive Request where
  | upload (session_id : String) (fileName : String)
  | mergeReq (files : List String)
  | cleanup (session_id : String) (files : List String)
deriving DecidableEq

/-- The session identifier a request carries, if any. -/
def requestSession : Request → Option String
  | .upload sid _ => some sid
  | .cleanup sid _ => some sid
  | .mergeReq _ => none

/-- One server upload response: the assigned `id`, the local file `name`,
and the server's stored `original_name` (`handleFilesDropped` in
`App.tsx`). -/
structure UploadResponse where
  id : String
  name : String
  original_name : String
deriving DecidableEq

/-- User-visible events of the `App` component. -/
inductive AppEvent where
  | filesDropped (ups : List UploadResponse)
  | removeFile (id : String)
  | reorder (i j : Nat)
  | mergeClick
  | beforeUnload
deriving DecidableEq

/-- One step of the `App` component: the next state and the backend
requests issued, embedded from `App.tsx` (`handleFilesDropped` attaches
`session_id: sessionIdRef.current` to every upload; `handleRemove` and
`handleReorder` are local; `handleMerge` posts `{files}`; the
`cleanup` closure sends the beacon
`{session_id: sessionIdRef.current, files: filesToClean}` only when
`filesToClean` is nonempty). -/
def stepApp (st : AppClient) (e : AppEvent) : AppClient × List Request :=
  match e with
  | .filesDropped ups =>
    ({ st with files := st.files ++ ups.map (fun u => ⟨u.id, u.name, some u.original_name⟩) },
     ups.map (fun u => .upload st.sessionId u.name))
  | .removeFile id => (handleRemove st id, [])
  | .reorder i j => ({ st with files := arrayMove st.files i j }, [])
  | .mergeClick =>
    (st, match handleMerge st.files with
         | none => []
         | some r => [.mergeReq r.files])
  | .beforeUnload =>
    (st, if cleanupFilesToClean st = [] then []
         else [.cleanup st.sessionId (cleanupFilesToClean st)])

/-- Runs the `App` component over a sequence of events, collecting every
backend request issued. -/
def runApp (st : AppClient) (evs : List AppEvent) : AppClient × List Request :=
  match evs with
  | [] => (st, [])
  | e :: rest =>
    let p := stepApp st e
    let q := runApp p.1 rest
    (q.1, p.2 ++ q.2)

/-- Applies a sequence of drag-and-drop moves (`FileList.handleDragEnd` via
`arrayMove`) to a file list. -/
def applyMoves {α : Type} (l : List α) (ms : List (Nat × Nat)) : List α :=
  ms.foldl (fun acc m => arrayMove acc m.1 m.2) l

/-! ### Helper lemmas -/

/-- Every index produced by a successfully expanded token is below the page
count. -/
theorem expandToken_lt {tok : List Char} {N : Nat} {l : List Nat}
    (h : expandToken tok N = .ok l) : ∀ i ∈ l, i < N := by
  unfold expandToken at h
  split at h
  · split at h
    · split at h
      · cases h
        rename_i n _ hn
        intro i hi
        simp only [List.mem_singleton] at hi
        omega
      · cases h
    · cases h
  · split at h
    · split at h
      · cases h
        rename_i x y _ hxy
        intro i hi
        rw [List.mem_range'_1] at hi
        omega
      · cases h
    · cases h
  · cases h

/-- Every index produced by a successfully expanded token list is below the
page count. -/
theorem expandTokens_lt {toks : List (List Char)} {N : Nat} {ls : List (List Nat)}
    (h : expandTokens toks N = .ok ls) : ∀ i ∈ ls.flatten, i < N := by
  induction toks generalizing ls with
  | nil =>
    unfold expandTokens at h
    cases h
    simp
  | cons t ts ih =>
    unfold expandTokens at h
    cases hET : expandToken t N with
    | error e => simp only [hET] at h; cases h
    | ok l =>
      simp only [hET] at h
      cases hETS : expandTokens ts N with
      | error e => simp only [hETS] at h; cases h
      | ok ls2 =>
        simp only [hETS] at h
        cases h
        intro i hi
        rw [List.flatten_cons, List.mem_append] at hi
        rcases hi with h1 | h2
        · exact expandToken_lt hET i h1
        · exact ih hETS i h2

/-- When every token expands, the parse succeeds and the index sequence is
the concatenation of the per-token expansions, in token order. -/
theorem pageSelector_eq_flatten {expr : String} {N : Nat} {ls : List (List Nat)}
    (h : expandTokens (tokensOf expr) N = .ok ls) (hne : tokensOf expr ≠ []) :
    pageSelector expr N false true = .ok ⟨ls.flatten, N⟩ := by
  unfold pageSelector
  rw [if_neg (by simp [List.isEmpty_iff, hne]), h]
  rfl

/-! ### Claim C1 -/

/-- C1: For every page count `N` and every selector string composed solely
of in-range comma-separated tokens (formally: every token expands
successfully against `N`), `pageSelector` returns a `PageSelection` whose
index sequence is exactly the concatenation of the per-token expansions in
token order (range shorthand expanding ascending via `List.range'`), and
every index lies in `[0, N)`; in particular `"1,3,5-7"` against page count
`10` yields the zero-based sequence `[0, 2, 4, 5, 6]`. -/
theorem pageSelector_inRange_preserves_token_order
    (expr : String) (N : Nat) (ls : List (List Nat))
    (h : expandTokens (tokensOf expr) N = .ok ls) (hne : tokensOf expr ≠ []) :
    pageSelector expr N false true = .ok ⟨ls.flatten, N⟩ ∧
    (∀ i ∈ ls.flatten, i < N) ∧
    pageSelector "1,3,5-7" 10 false true = .ok ⟨[0, 2, 4, 5, 6], 10⟩ :=
  ⟨pageSelector_eq_flatten h hne, expandTokens_lt h, rfl⟩

/-- Witness for C1 at the spec's own example. -/
theorem pageSelector_inRange_preserves_token_order_witness :
    pageSelector "1,3,5-7" 10 false true = .ok ⟨[[0], [2], [4, 5, 6]].flatten, 10⟩ ∧
    pageSelector "1,3,5-7" 10 false true = .ok ⟨[0, 2, 4, 5, 6], 10⟩ :=
  ⟨(pageSelector_inRange_preserves_token_order "1,3,5-7" 10 [[0], [2], [4, 5, 6]]
      rfl (by decide)).1,
   (pageSelector_inRange_preserves_token_order "1,3,5-7" 10 [[0], [2], [4, 5, 6]]
      rfl (by decide)).2.2⟩

/-! ### Claim C2 -/

/-- C2: For every page count `N`, the reversed range `"5-2"`, the number
`"0"`, and any single plain-numeral token whose value exceeds `N` all fail
with a `ValidationError` (no `PageSelection` returned, no clamping); the
fully empty expression is a `ValidationError` under the
split/extract/remove policy (`requireNonEmpty = true`) but valid — meaning
all pages in original order — under the organize policy. -/
theorem pageSelector_validation_failures_and_empty_policy
    (N n : Nat) (d r : Bool) (s : String)
    (h1 : tokensOf s = [s.data]) (h2 : splitOnChar '-' s.data = [s.data])
    (h3 : charsToNat? s.data = some n) (h4 : N < n) :
    pageSelector "5-2" N d r = .error (.validationError "5-2") ∧
    pageSelector "0" N d r = .error (.validationError "0") ∧
    pageSelector s N d r = .error (.validationError s) ∧
    pageSelector "" N d true = .error (.validationError "") ∧
    pageSelector "" N d false = .ok ⟨List.range N, N⟩ := by
  refine ⟨rfl, rfl, ?_, rfl, rfl⟩
  have hx : expandToken s.data N = .error (.validationError ⟨s.data⟩) := by
    unfold expandToken
    rw [h2]
    simp only [h3]
    rw [if_neg]
    omega
  have hy : expandTokens [s.data] N = .error (.validationError ⟨s.data⟩) := by
    unfold expandTokens
    rw [hx]
  unfold pageSelector
  rw [h1]
  rw [if_neg (by simp), hy]

/-- Witness for C2 with the over-range numeral `"11"` against page count
`10`. -/
theorem pageSelector_validation_failures_and_empty_policy_witness :
    pageSelector "5-2" 10 true true = .error (.validationError "5-2") ∧
    pageSelector "0" 10 true true = .error (.validationError "0") ∧
    pageSelector "11" 10 true true = .error (.validationError "11") ∧
    pageSelector "" 10 true true = .error (.validationError "") ∧
    pageSelector "" 10 true false = .ok ⟨List.range 10, 10⟩ :=
  pageSelector_validation_failures_and_empty_policy 10 11 true true "11"
    (by decide) (by decide) (by decide) (by decide)

/-! ### Claim C3 -/

/-- C3: Merge is rejected when fewer than two input artifacts are supplied
(both by the frontend guard in `handleMerge` and by the pipeline), and on
success the output page sequence is exactly the concatenation of the
inputs' pages in the caller-specified order; the request built from the
drag-reordered list depends only on the final ordering, so the result is
independent of the order in which the artifacts were originally uploaded. -/
theorem merge_requires_two_inputs_and_concatenates_in_caller_order
    (inputs : List Artifact) (u1 u2 : List FileItem) (m1 m2 : List (Nat × Nat))
    (horder : applyMoves u1 m1 = applyMoves u2 m2) :
    (inputs.length < 2 → mergeBackend inputs = .error .tooFewInputs) ∧
    (2 ≤ inputs.length →
      mergeBackend inputs = .ok ((inputs.map (fun a => a.pages)).flatten)) ∧
    (∀ fs : List FileItem, fs.length < 2 → handleMerge fs = none) ∧
    handleMerge (applyMoves u1 m1) = handleMerge (applyMoves u2 m2) := by
  refine ⟨?_, ?_, ?_, by rw [horder]⟩
  · intro h
    simp [mergeBackend, h]
  · intro h
    simp [mergeBackend, Nat.not_lt.mpr h]
  · intro fs h
    simp [handleMerge, h]

/-- Witness for C3: two uploads in the order `[B, A]`, dragged into the
order `[A, B]`, merge the same as uploading `[A, B]` directly; the merged
page sequence is the concatenation in final list order. -/
theorem merge_requires_two_inputs_and_concatenates_witness :
    mergeBackend [⟨"A", [1, 2]⟩, ⟨"B", [3]⟩] = .ok [1, 2, 3] ∧
    handleMerge (applyMoves [⟨"fA", "a.pdf", some "u1.pdf"⟩, ⟨"fB", "b.pdf", some "u2.pdf"⟩] [])
      = handleMerge (applyMoves [⟨"fB", "b.pdf", some "u2.pdf"⟩, ⟨"fA", "a.pdf", some "u1.pdf"⟩]
          [(0, 1)]) :=
  ⟨(merge_requires_two_inputs_and_concatenates_in_caller_order
      [⟨"A", [1, 2]⟩, ⟨"B", [3]⟩]
      [⟨"fA", "a.pdf", some "u1.pdf"⟩, ⟨"fB", "b.pdf", some "u2.pdf"⟩]
      [⟨"fB", "b.pdf", some "u2.pdf"⟩, ⟨"fA", "a.pdf", some "u1.pdf"⟩]
      [] [(0, 1)] rfl).2.1 (by decide),
   (merge_requires_two_inputs_and_concatenates_in_caller_order
      [⟨"A", [1, 2]⟩, ⟨"B", [3]⟩]
      [⟨"fA", "a.pdf", some "u1.pdf"⟩, ⟨"fB", "b.pdf", some "u2.pdf"⟩]
      [⟨"fB", "b.pdf", some "u2.pdf"⟩, ⟨"fA", "a.pdf", some "u1.pdf"⟩]
      [] [(0, 1)] rfl).2.2.2⟩

/-! ### Claim C4 -/

/-- C4: Whenever a transform fails in any non-terminal state — parameter
validation, input resolution, or the engine call (error, timeout, or crash
mid-write leaving a partial output file) — zero new artifacts are
registered, every previously existing artifact and stored file is left
untouched, and the partial output file is deleted before the error is
surfaced: the final system state equals the initial one.  The freshness
hypothesis reflects that a partial output is written under a newly
allocated `storedName`, never an existing one. -/
theorem transform_failure_atomic_no_artifact_no_partial_file
    (s s2 : SysState) (pv ir : Bool) (eng : EngineOutcome) (newId : String)
    (e : PipelineError)
    (hrun : runTransform s pv ir eng newId = (s2, .error e))
    (hfresh : ∀ p, eng = .fail (some p) → p ∉ s.storedFiles) :
    s2 = s ∧ s2.artifacts = s.artifacts ∧
    (∀ p, eng = .fail (some p) → p ∉ s2.storedFiles) := by
  have hs : s2 = s := by
    unfold runTransform at hrun
    split at hrun
    · exact (Prod.mk.injEq .. ▸ hrun).1.symm
    · split at hrun
      · exact (Prod.mk.injEq .. ▸ hrun).1.symm
      · cases eng with
        | ok outFile outPages => simp at hrun
        | fail po =>
          cases po with
          | none => exact (Prod.mk.injEq .. ▸ hrun).1.symm
          | some p =>
            simp only [Prod.mk.injEq] at hrun
            rw [← hrun.1]
            have hp : p ∉ s.storedFiles := hfresh p rfl
            have : (s.storedFiles ++ [p]).erase p = s.storedFiles := by
              rw [List.erase_append_right _ hp, List.erase_cons_head]
              simp
            simp [this]
  refine ⟨hs, by rw [hs], ?_⟩
  intro p hpe
  rw [hs]
  exact hfresh p hpe

/-- Witness for C4: an engine crash mid-write leaving the partial file
`"tmp.pdf"` next to the pre-existing `"a.pdf"` restores the initial state
exactly. -/
theorem transform_failure_atomic_witness :
    (runTransform ⟨[], ["a.pdf"]⟩ true true (.fail (some "tmp.pdf")) "x").1
      = (⟨[], ["a.pdf"]⟩ : SysState) :=
  (transform_failure_atomic_no_artifact_no_partial_file
    ⟨[], ["a.pdf"]⟩ (runTransform ⟨[], ["a.pdf"]⟩ true true (.fail (some "tmp.pdf")) "x").1
    true true (.fail (some "tmp.pdf")) "x" .engineFailure rfl
    (by intro p hp; cases hp; decide)).1

/-! ### Claim C5 -/

/-- C5: `cleanupNow` is idempotent and tolerant of stale input: it always
succeeds; after it runs, no artifact of the session named in the list
remains; running it a second time with the same arguments yields the same
end state (and succeeds); and a name owned by no stored artifact is a
no-op rather than an error. -/
theorem contains_true_iff (names : List String) (x : String) :
    names.contains x = true ↔ x ∈ names := by
  rw [List.contains_iff_exists_mem_beq]
  constructor
  · rintro ⟨y, hy, hbeq⟩
    rw [eq_of_beq hbeq]
    exact hy
  · intro hx
    exact ⟨x, hx, by simp⟩

/-- C5: `cleanupNow` is idempotent and tolerant of stale input: it always
succeeds; after it runs, no artifact of the session named in the list
remains; running it a second time with the same arguments yields the same
end state (and the same success); and a name owned by no stored artifact is
a no-op rather than an error. -/
theorem cleanupNow_idempotent_stale_tolerant
    (st : ServerState) (sid : String) (names : List String) (n : String)
    (hstale : ∀ a ∈ st.artifacts, a.storedName ≠ n) :
    (cleanupNow st sid names).2 = true ∧
    (∀ a ∈ (cleanupNow st sid names).1.artifacts,
      ¬(a.sessionId = sid ∧ a.storedName ∈ names)) ∧
    cleanupNow (cleanupNow st sid names).1 sid names = cleanupNow st sid names ∧
    cleanupNow st sid (n :: names) = cleanupNow st sid names := by
  refine ⟨rfl, ?_, ?_, ?_⟩
  · intro a ha hc
    have hb : (!(a.sessionId == sid && names.contains a.storedName)) = true :=
      (List.mem_filter.mp ha).2
    rw [Bool.not_eq_true', Bool.and_eq_false_iff] at hb
    rcases hb with h | h
    · rw [beq_eq_false_iff_ne] at h
      exact h hc.1
    · rw [(contains_true_iff names a.storedName).mpr hc.2] at h
      cases h
  · simp only [cleanupNow, ServerState.mk.injEq, Prod.mk.injEq, and_true]
    rw [List.filter_filter]
    exact List.filter_congr (fun a _ => by rw [Bool.and_self])
  · simp only [cleanupNow, ServerState.mk.injEq, Prod.mk.injEq, and_true]
    refine List.filter_congr (fun a ha => ?_)
    have hne : (a.storedName == n) = false := beq_eq_false_iff_ne.mpr (hstale a ha)
    simp [List.contains_cons, hne, decide_eq_false (hstale a ha)]

/-- Witness for C5: one stored artifact of session `"s1"` named `"f1.pdf"`;
cleaning up `["f1.pdf"]` twice gives the same empty table, and the unknown
name `"zzz.pdf"` is a no-op. -/
theorem cleanupNow_idempotent_stale_tolerant_witness :
    cleanupNow (cleanupNow ⟨[⟨"s1", "f1.pdf"⟩]⟩ "s1" ["f1.pdf"]).1 "s1" ["f1.pdf"]
      = cleanupNow ⟨[⟨"s1", "f1.pdf"⟩]⟩ "s1" ["f1.pdf"] ∧
    cleanupNow ⟨[⟨"s1", "f1.pdf"⟩]⟩ "s1" ("zzz.pdf" :: ["f1.pdf"])
      = cleanupNow ⟨[⟨"s1", "f1.pdf"⟩]⟩ "s1" ["f1.pdf"] :=
  ⟨(cleanupNow_idempotent_stale_tolerant ⟨[⟨"s1", "f1.pdf"⟩]⟩ "s1" ["f1.pdf"] "zzz.pdf"
      (by decide)).2.2.1,
   (cleanupNow_idempotent_stale_tolerant ⟨[⟨"s1", "f1.pdf"⟩]⟩ "s1" ["f1.pdf"] "zzz.pdf"
      (by decide)).2.2.2⟩

/-! ### Claim C6 -/

/-- With all indices in bounds, looking each index up is total. -/
theorem filterMap_get_eq_map_getD (origPages : List Nat) (idxs : List Nat)
    (h : ∀ i ∈ idxs, i < origPages.length) :
    idxs.filterMap (fun i => origPages[i]?) = idxs.map (fun i => origPages.getD i 0) := by
  induction idxs with
  | nil => rfl
  | cons i is ih =>
    have hi : i < origPages.length := h i (List.mem_cons_self i is)
    rw [List.filterMap_cons, List.map_cons,
      ih (fun j hj => h j (List.mem_cons_of_mem i hj))]
    rw [List.getElem?_eq_getElem hi, List.getD_eq_getElem origPages 0 hi]

/-- C6: The organize request built by `PageOrganizerModal.handleSave` is an
explicit sequence of zero-based original page indices (no comma/range
selector string), and for every in-bounds index sequence the organized
output contains exactly the pages named by the sequence in its order —
duplicate indices duplicate a page and unlisted indices are dropped, shown
on concrete inputs. -/
theorem organize_explicit_indices_duplicates_and_drops
    (origPages idxs : List Nat) (h : ∀ i ∈ idxs, i < origPages.length)
    (fileName : String) (pages : List PageItem) :
    organizeBackend origPages idxs = .ok (idxs.map (fun i => origPages.getD i 0)) ∧
    handleSavePayload fileName pages
      = ⟨fileName, pages.map (fun p => p.originalIndex)⟩ ∧
    organizeBackend [10, 20] [0, 0] = .ok [10, 10] ∧
    organizeBackend [10, 20, 30] [2, 0] = .ok [30, 10] := by
  refine ⟨?_, rfl, rfl, rfl⟩
  unfold organizeBackend
  rw [if_pos, filterMap_get_eq_map_getD origPages idxs h]
  rw [List.all_eq_true]
  intro i hi
  exact decide_eq_true (h i hi)

/-- Witness for C6: duplicating page `0` of a two-page document and
reordering `[2, 0]` of a three-page document. -/
theorem organize_explicit_indices_duplicates_witness :
    organizeBackend [10, 20] [0, 0] = .ok ([0, 0].map (fun i => [10, 20].getD i 0)) ∧
    organizeBackend [10, 20, 30] [2, 0] = .ok [30, 10] :=
  ⟨(organize_explicit_indices_duplicates_and_drops [10, 20] [0, 0] (by decide) "f" []).1,
   (organize_explicit_indices_duplicates_and_drops [10, 20] [0, 0] (by decide) "f" []).2.2.2⟩

/-! ### Claim C7 -/

/-- A character list is a Boolean prefix of itself followed by anything. -/
theorem isPrefixOf_append_self (l r : List Char) : l.isPrefixOf (l ++ r) = true := by
  induction l with
  | nil => simp
  | cons a as ih => simp [List.isPrefixOf_cons₂, ih]

/-- A stored name of the form `{pfx}_{tok}.{ext}` starts with `{pfx}_`. -/
theorem prefixRoutes (p q t e : String) (hq : q.data = p.data ++ "_".data) :
    q.data.isPrefixOf ((p ++ "_" ++ t ++ "." ++ e).data) = true := by
  have hx : (p ++ "_" ++ t ++ "." ++ e).data
      = q.data ++ (t.data ++ (".".data ++ e.data)) := by
    rw [hq]
    simp [String.data_append, List.append_assoc]
  rw [hx]
  exact isPrefixOf_append_self _ _

/-- Every generated stored name routes to the generated (`merged`) bucket
under the frontend's prefix dispatch. -/
theorem storedNameFor_isProcessed (k : OpKind) (tok ext : String) :
    isProcessedFile (storedNameFor k tok ext) = true := by
  cases k
  case organized =>
    have h := prefixRoutes "organized" "organized_" tok ext rfl
    simp [isProcessedFile, storedNameFor, opKindPfx, h]
  case splitDoc =>
    have h := prefixRoutes "split" "split_" tok ext rfl
    simp [isProcessedFile, storedNameFor, opKindPfx, h]
  case compressed =>
    have h := prefixRoutes "compressed" "compressed_" tok ext rfl
    simp [isProcessedFile, storedNameFor, opKindPfx, h]
  case protectedDoc =>
    have h := prefixRoutes "protected" "protected_" tok ext rfl
    simp [isProcessedFile, storedNameFor, opKindPfx, h]
  case watermarked =>
    have h := prefixRoutes "watermarked" "watermarked_" tok ext rfl
    simp [isProcessedFile, storedNameFor, opKindPfx, h]
  case images =>
    have h := prefixRoutes "images" "images_" tok ext rfl
    simp [isProcessedFile, storedNameFor, opKindPfx, h]

/-- C7: `ArtifactStore.create` allocates a `storedName` of the form
`{operationKindPrefix}_{randomToken}.{ext}` carried by no existing record;
the store is extended append-only (a new record, no existing record mutated
or overwritten); an accidental collision is rejected with an error rather
than overwritten; and the operation-kind prefix deterministically routes
the name to the generated (`merged`) bucket under the frontend's
prefix-based lookup dispatch. -/
theorem artifactStore_create_fresh_name_append_only_routing
    (st st2 : ArtifactStore) (sid dn : String) (src : Option String)
    (k : OpKind) (newId tok ext : String) (r : ArtifactRec)
    (hok : create st sid dn src k newId tok ext = .ok (st2, r)) :
    (∀ r0 ∈ st.records, r0.storedName ≠ r.storedName) ∧
    st2.records = st.records ++ [r] ∧
    r.storedName = storedNameFor k tok ext ∧
    (∀ st3 : ArtifactStore,
      (∃ r0 ∈ st3.records, r0.storedName = storedNameFor k tok ext) →
      create st3 sid dn src k newId tok ext = .error .nameCollision) ∧
    directoryFor (storedNameFor k tok ext) = "merged" := by
  have hcol : ∀ st3 : ArtifactStore,
      (∃ r0 ∈ st3.records, r0.storedName = storedNameFor k tok ext) →
      create st3 sid dn src k newId tok ext = .error .nameCollision := by
    intro st3 ⟨r0, hr0, hname⟩
    simp only [create]
    rw [if_pos]
    rw [List.any_eq_true]
    exact ⟨r0, hr0, beq_iff_eq.mpr hname⟩
  simp only [create] at hok
  split at hok
  · cases hok
  · rename_i hany
    rw [List.any_eq_true] at hany
    push_neg at hany
    cases hok
    refine ⟨?_, rfl, rfl, hcol, ?_⟩
    · intro r0 hr0
      have := hany r0 hr0
      simpa using this
    · simp [directoryFor, storedNameFor_isProcessed k tok ext]

/-- Witness for C7: creating into an empty store appends exactly one record
and its name routes to the generated bucket. -/
theorem artifactStore_create_witness :
    (⟨[⟨"id1", storedNameFor .organized "tok" "pdf", "disp", "sess", none⟩]⟩ :
        ArtifactStore).records
      = ([] : List ArtifactRec)
          ++ [⟨"id1", storedNameFor .organized "tok" "pdf", "disp", "sess", none⟩] ∧
    directoryFor (storedNameFor .organized "tok" "pdf") = "merged" :=
  ⟨(artifactStore_create_fresh_name_append_only_routing ⟨[]⟩
      ⟨[⟨"id1", storedNameFor .organized "tok" "pdf", "disp", "sess", none⟩]⟩
      "sess" "disp" none .organized "id1" "tok" "pdf"
      ⟨"id1", storedNameFor .organized "tok" "pdf", "disp", "sess", none⟩ rfl).2.1,
   (artifactStore_create_fresh_name_append_only_routing ⟨[]⟩
      ⟨[⟨"id1", storedNameFor .organized "tok" "pdf", "disp", "sess", none⟩]⟩
      "sess" "disp" none .organized "id1" "tok" "pdf"
      ⟨"id1", storedNameFor .organized "tok" "pdf", "disp", "sess", none⟩ rfl).2.2.2.2⟩

/-! ### Claim C8 (corrected) -/

/-- C8 counterexample: explicitly removing a file does *not* destroy its
stored artifact.  A session uploads one file (stored as `"upload_1.pdf"`),
the user removes it via `handleRemove`, and the page closes: the file is
gone from the working list, so the close-time cleanup manifest is empty and
the cleanup pass deletes nothing — the stored artifact survives in the
server table.  `handleRemove` itself performs no backend request (its body
only filters the local list and clears the merged URL). -/
theorem handleRemove_leaves_stored_artifact_cex :
    cleanupFilesToClean
        (handleRemove ⟨"session_1_aaa", [⟨"f1", "doc.pdf", some "upload_1.pdf"⟩]⟩ "f1")
      = [] ∧
    (cleanupNow ⟨[⟨"session_1_aaa", "upload_1.pdf"⟩]⟩
        (handleRemove ⟨"session_1_aaa", [⟨"f1", "doc.pdf", some "upload_1.pdf"⟩]⟩
          "f1").sessionId
        (cleanupFilesToClean
          (handleRemove ⟨"session_1_aaa", [⟨"f1", "doc.pdf", some "upload_1.pdf"⟩]⟩
            "f1"))).1
      = ⟨[⟨"session_1_aaa", "upload_1.pdf"⟩]⟩ ∧
    (⟨[⟨"session_1_aaa", "upload_1.pdf"⟩]⟩ : ServerState).artifacts ≠ [] :=
  ⟨rfl, rfl, by decide⟩

/-- C8 amended: an Artifact is created on upload (no source artifact) or on
successful transform completion, and is destroyed by session cleanup of the
names still in the working list, or by the backend's periodic sweep —
explicit per-file removal, however, destroys nothing on the server: it only
removes the file from the client working list (and thereby from the
close-time cleanup manifest), so the removed file's stored artifact
survives even the subsequent session cleanup. -/
theorem handleRemove_client_only_artifact_survives
    (st : AppClient) (srv : ServerState) (id n : String) (f : FileItem)
    (hf : f ∈ st.files) (hid : f.id = id) (hn : f.original_name = some n)
    (huniq : ∀ g ∈ st.files, g.original_name = some n → g.id = id) :
    (handleRemove st id).sessionId = st.sessionId ∧
    (handleRemove st id).files = st.files.filter (fun g => !(g.id == id)) ∧
    n ∉ cleanupFilesToClean (handleRemove st id) ∧
    (∀ a ∈ srv.artifacts, a.storedName = n →
      a ∈ (cleanupNow srv (handleRemove st id).sessionId
            (cleanupFilesToClean (handleRemove st id))).1.artifacts) := by
  have hnotin : n ∉ cleanupFilesToClean (handleRemove st id) := by
    intro hmem
    rw [cleanupFilesToClean, List.mem_filterMap] at hmem
    obtain ⟨g, hg, hgn⟩ := hmem
    rw [handleRemove] at hg
    simp only [List.mem_filter, Bool.not_eq_true', beq_eq_false_iff_ne] at hg
    exact hg.2 (huniq g hg.1 hgn)
  refine ⟨rfl, rfl, hnotin, ?_⟩
  intro a ha hname
  rw [cleanupNow]
  simp only [List.mem_filter]
  refine ⟨ha, ?_⟩
  rw [Bool.not_eq_true', Bool.and_eq_false_iff]
  right
  rw [← Bool.not_eq_true]
  intro hcon
  exact hnotin (hname ▸ (contains_true_iff _ _).mp hcon)

/-- Witness for the C8 amended theorem at the counterexample's input: the
stored artifact of the removed file is still in the server table after the
close-time cleanup. -/
theorem handleRemove_client_only_artifact_survives_witness :
    (⟨"session_1_aaa", "upload_1.pdf"⟩ : StoredArtifact) ∈
      (cleanupNow ⟨[⟨"session_1_aaa", "upload_1.pdf"⟩]⟩
        (handleRemove ⟨"session_1_aaa", [⟨"f1", "doc.pdf", some "upload_1.pdf"⟩]⟩
          "f1").sessionId
        (cleanupFilesToClean
          (handleRemove ⟨"session_1_aaa", [⟨"f1", "doc.pdf", some "upload_1.pdf"⟩]⟩
            "f1"))).1.artifacts :=
  (handleRemove_client_only_artifact_survives
      ⟨"session_1_aaa", [⟨"f1", "doc.pdf", some "upload_1.pdf"⟩]⟩
      ⟨[⟨"session_1_aaa", "upload_1.pdf"⟩]⟩ "f1" "upload_1.pdf"
      ⟨"f1", "doc.pdf", some "upload_1.pdf"⟩ (by decide) rfl rfl
      (by decide)).2.2.2
    ⟨"session_1_aaa", "upload_1.pdf"⟩ (by decide) rfl

/-! ### Claim C9 (corrected) -/

/-- C9 counterexample: two App instances with different session identifiers
and the same working list build byte-identical `/merge` requests — the
transform request carries no session identifier at all — so the backend,
whose response is a function of the request, cannot fail one with
`Forbidden` while serving the other; the claimed per-session ownership
check on transform inputs cannot occur. -/
theorem merge_request_identical_across_sessions_cex :
    buildMergeRequest ⟨"session_100_aaa",
        [⟨"f1", "a.pdf", some "u1.pdf"⟩, ⟨"f2", "b.pdf", some "u2.pdf"⟩]⟩
      = buildMergeRequest ⟨"session_200_bbb",
          [⟨"f1", "a.pdf", some "u1.pdf"⟩, ⟨"f2", "b.pdf", some "u2.pdf"⟩]⟩ ∧
    buildMergeRequest ⟨"session_100_aaa",
        [⟨"f1", "a.pdf", some "u1.pdf"⟩, ⟨"f2", "b.pdf", some "u2.pdf"⟩]⟩
      = some ⟨["u1.pdf", "u2.pdf"]⟩ ∧
    ("session_100_aaa" : String) ≠ "session_200_bbb" :=
  ⟨rfl, rfl, by decide⟩

/-- C9 amended: transform requests are session-blind.  The `/merge` payload
is `{files}` and the `/organize` payload is `{filename, page_indices}`;
neither carries a session identifier (only upload and cleanup do), so the
pipeline processes an artifact reference identically whichever session
issues it — a cross-session reference is not rejected with `Forbidden`
(the spec's own section 9 records this enforcement gap). -/
theorem transform_request_session_blind
    (s1 s2 : AppClient) (hfs : s1.files = s2.files)
    (fn : String) (pages : List PageItem) :
    buildMergeRequest s1 = buildMergeRequest s2 ∧
    (∀ sid : String, buildMergeRequest ⟨sid, s1.files⟩ = buildMergeRequest s1) ∧
    handleSavePayload fn pages = ⟨fn, pages.map (fun p => p.originalIndex)⟩ :=
  ⟨by rw [buildMergeRequest, buildMergeRequest, hfs], fun _ => rfl, rfl⟩

/-- Witness for the C9 amended theorem at the counterexample's input. -/
theorem transform_request_session_blind_witness :
    buildMergeRequest ⟨"session_100_aaa",
        [⟨"f1", "a.pdf", some "u1.pdf"⟩, ⟨"f2", "b.pdf", some "u2.pdf"⟩]⟩
      = buildMergeRequest ⟨"session_200_bbb",
          [⟨"f1", "a.pdf", some "u1.pdf"⟩, ⟨"f2", "b.pdf", some "u2.pdf"⟩]⟩ :=
  (transform_request_session_blind
    ⟨"session_100_aaa", [⟨"f1", "a.pdf", some "u1.pdf"⟩, ⟨"f2", "b.pdf", some "u2.pdf"⟩]⟩
    ⟨"session_200_bbb", [⟨"f1", "a.pdf", some "u1.pdf"⟩, ⟨"f2", "b.pdf", some "u2.pdf"⟩]⟩
    rfl "f" []).1

/-! ### Claim C10 -/

/-- Running the app never changes the session identifier, and every emitted
request that carries a session field carries the state's identifier. -/
theorem runApp_session_stable (st : AppClient) (evs : List AppEvent) :
    (runApp st evs).1.sessionId = st.sessionId ∧
    (∀ r ∈ (runApp st evs).2, ∀ sid, requestSession r = some sid →
      sid = st.sessionId) := by
  induction evs generalizing st with
  | nil => exact ⟨rfl, by simp [runApp]⟩
  | cons e rest ih =>
    have hstep : (stepApp st e).1.sessionId = st.sessionId ∧
        (∀ r ∈ (stepApp st e).2, ∀ sid, requestSession r = some sid →
          sid = st.sessionId) := by
      cases e with
      | filesDropped ups =>
        refine ⟨rfl, ?_⟩
        intro r hr sid hsid
        simp only [stepApp, List.mem_map] at hr
        obtain ⟨u, _, hu⟩ := hr
        rw [← hu, requestSession] at hsid
        exact (Option.some.injEq .. ▸ hsid).symm
      | removeFile id => exact ⟨rfl, by simp [stepApp]⟩
      | reorder i j => exact ⟨rfl, by simp [stepApp]⟩
      | mergeClick =>
        refine ⟨rfl, ?_⟩
        intro r hr sid hsid
        simp only [stepApp] at hr
        cases hm : handleMerge st.files with
        | none => rw [hm] at hr; cases hr
        | some q =>
          rw [hm] at hr
          simp only [List.mem_singleton] at hr
          rw [hr, requestSession] at hsid
          cases hsid
      | beforeUnload =>
        refine ⟨rfl, ?_⟩
        intro r hr sid hsid
        simp only [stepApp] at hr
        split at hr
        · cases hr
        · simp only [List.mem_singleton] at hr
          rw [hr, requestSession] at hsid
          exact (Option.some.injEq .. ▸ hsid).symm
    have hrun : runApp st (e :: rest)
        = ((runApp (stepApp st e).1 rest).1,
           (stepApp st e).2 ++ (runApp (stepApp st e).1 rest).2) := rfl
    rw [hrun]
    refine ⟨(ih (stepApp st e).1).1.trans hstep.1, ?_⟩
    intro r hr sid hsid
    rcases List.mem_append.mp hr with h1 | h2
    · exact hstep.2 r h1 sid hsid
    · exact ((ih (stepApp st e).1).2 r h2 sid hsid).trans hstep.1

/-- C10: Within one frontend App instance the session identifier is
generated exactly once at page load as `session_{timestamp}_{random}`, is
never regenerated over any sequence of user events, and the identical id
string is attached to every upload request and to the cleanup beacon (the
only requests carrying a session field). -/
theorem sessionId_generated_once_attached_to_all_requests
    (now : Nat) (rand : String) (evs : List AppEvent) :
    generateSessionId now rand = "session_" ++ toString now ++ "_" ++ rand ∧
    (runApp (initApp now rand) evs).1.sessionId = generateSessionId now rand ∧
    (∀ r ∈ (runApp (initApp now rand) evs).2, ∀ sid,
      requestSession r = some sid → sid = generateSessionId now rand) :=
  ⟨rfl, (runApp_session_stable (initApp now rand) evs).1,
   (runApp_session_stable (initApp now rand) evs).2⟩

/-- Witness for C10: a drop of one file followed by page close; the state's
identifier is still the load-time one. -/
theorem sessionId_generated_once_witness :
    (runApp (initApp 1700000000000 "abc123def")
        [.filesDropped [⟨"f1", "doc.pdf", "upload_1.pdf"⟩], .beforeUnload]).1.sessionId
      = generateSessionId 1700000000000 "abc123def" :=
  (sessionId_generated_once_attached_to_all_requests 1700000000000 "abc123def"
    [.filesDropped [⟨"f1", "doc.pdf", "upload_1.pdf"⟩], .beforeUnload]).2.1

end PDFTools
